import Mathlib

/-!
Shallow embedding of the vector-database adapter in
`packages/core/src/vectordb/qdrant-vectordb.ts`.

Every definition below is translated from that source file.  JavaScript
optional values are modelled with `Option`; JavaScript truthiness tests
(`if (x)`, `x || d`) are modelled explicitly (`0` and the empty string are
falsy); numbers carried by vectors and scores are modelled by `Rat`, numbers
used as counts/ports/line numbers by `Int`.  Each public operation of the
adapter takes the (possibly absent) client handle, the backend's response to
the one backend call the operation can issue, and the operation's arguments;
it returns the operation's result (`Except`) together with the list of
backend calls actually issued, so that "fails before issuing any backend
call" is expressible.
-/

namespace QdrantDB

/-- JS truthiness of an optional string (`undefined` and `""` are falsy). -/
def truthyStr : Option String → Bool
  | some s => !(s == "")
  | none => false

/-- JS truthiness of an optional number (`undefined` and `0` are falsy). -/
def truthyInt : Option Int → Bool
  | some n => !(n == 0)
  | none => false

/-- JS `x || d` for an optional integer-valued number (`0` is falsy). -/
def jsOrInt : Option Int → Int → Int
  | some n, d => if n = 0 then d else n
  | none, d => d

/-- JS `x || d` for an optional rational-valued number (`0` is falsy). -/
def jsOrRat : Option Rat → Rat → Rat
  | some q, d => if q = 0 then d else q
  | none, d => d

/-- JS `x || d` for an optional string (`""` is falsy). -/
def jsOrStr : Option String → String → String
  | some s, d => if s = "" then d else s
  | none, d => d

/-- `small.isPrefix-of large` test on character lists, written out. -/
def leadEq : List Char → List Char → Bool
  | [], _ => true
  | _ :: _, [] => false
  | p :: ps, c :: cs => p == c && leadEq ps cs

/-- JS `String.prototype.includes`: does `pat` occur as a substring of `s`? -/
def listIncl (pat : List Char) : List Char → Bool
  | [] => pat.isEmpty
  | c :: rest => leadEq pat (c :: rest) || listIncl pat rest

/-- `s.includes(pat)` on strings. -/
def strIncl (s pat : String) : Bool :=
  listIncl pat.data s.data

/-- `error.message?.includes(pat)`: `undefined` short-circuits to falsy. -/
def strInclOpt : Option String → String → Bool
  | some s, pat => strIncl s pat
  | none, _ => false

/-! ## Data model (`VectorDocument`, payloads, backend points) -/

/-- `VectorDocument` from `types.ts` as consumed by the adapter:
id, vector, content, provenance fields and an open metadata map. -/
structure VectorDocument where
  id : String
  vector : List Rat
  content : String
  relativePath : String
  startLine : Int
  endLine : Int
  fileExtension : String
  metadata : List (String × String)
deriving DecidableEq

/-- The flat payload the adapter writes with a point and reads back from a
search result; each field may be absent in a stored payload. -/
structure Payload where
  content : Option String := none
  relativePath : Option String := none
  startLine : Option Int := none
  endLine : Option Int := none
  fileExtension : Option String := none
  metadata : Option (List (String × String)) := none
deriving DecidableEq

/-- Encode (insert path): the payload map receives exactly the five
provenance/content fields plus the metadata map, verbatim. -/
def encodePayload (doc : VectorDocument) : Payload :=
  { content := some doc.content
    relativePath := some doc.relativePath
    startLine := some doc.startLine
    endLine := some doc.endLine
    fileExtension := some doc.fileExtension
    metadata := some doc.metadata }

/-- The vector slot of an upserted point: bare (plain `insert`) or under the
reserved name `dense` (`insertHybrid`). -/
inductive PointVector where
  | bare (v : List Rat)
  | namedDense (dense : List Rat)
deriving DecidableEq

/-- A point sent to the backend by `upsert`. -/
structure Point where
  id : String
  vector : PointVector
  payload : Payload
deriving DecidableEq

/-- A scored point returned by the backend `search` call
(`payload` may be null, `with_vector: false` so no vector comes back). -/
structure ScoredPoint where
  id : String
  payload : Option Payload
  score : Rat
deriving DecidableEq

/-- A point returned by the backend `scroll` call; its payload is an open
key/value map. -/
structure ScrollPoint where
  id : String
  payload : Option (List (String × String))
deriving DecidableEq

/-- A collection descriptor as returned by the backend `getCollections`. -/
structure CollectionDescription where
  name : String
deriving DecidableEq

/-! ## Configuration and client construction -/

/-- `QdrantConfig` — every field optional. -/
structure QdrantConfig where
  url : Option String := none
  apiKey : Option String := none
  port : Option Int := none
  host : Option String := none
  timeout : Option Int := none
deriving DecidableEq

/-- The configuration object handed to the backend REST client. -/
structure ClientConfig where
  url : Option String := none
  host : Option String := none
  port : Option Int := none
  apiKey : Option String := none
  timeout : Option Int := none
deriving DecidableEq

/-- `initializeClient`: connection-target precedence (url, then host/port
with `port || 6333`, then `localhost:6333`), then `apiKey` and `timeout`
copied when truthy. -/
def initializeClient (config : QdrantConfig) : ClientConfig :=
  let clientConfig : ClientConfig :=
    if truthyStr config.url then
      { url := config.url }
    else if truthyStr config.host then
      { host := config.host, port := some (jsOrInt config.port 6333) }
    else
      { host := some "localhost", port := some 6333 }
  let clientConfig :=
    if truthyStr config.apiKey then { clientConfig with apiKey := config.apiKey }
    else clientConfig
  let clientConfig :=
    if truthyInt config.timeout then { clientConfig with timeout := config.timeout }
    else clientConfig
  clientConfig

/-- The constructed client handle (`this.client`); the adapter stores it as
`QdrantClient | null`, modelled as `Option Client` at each operation. -/
abbrev Client := ClientConfig

/-! ## Errors -/

/-- A failure reported by the backend: HTTP-ish status and message. -/
structure BackendError where
  status : Option Int := none
  message : Option String := none
deriving DecidableEq

/-- The adapter's error taxonomy: the `ensureInitialized` throw
(`'Qdrant client not initialized'`), the argument-validation throw
(carrying its message), and a backend failure propagated verbatim. -/
inductive QdrantError where
  | notInitialized
  | invalidRequest (msg : String)
  | backend (e : BackendError)
deriving DecidableEq

/-- The message of the `hybridSearch` validation throw. -/
def denseRequiredMsg : String :=
  "Dense vector search request required for hybrid search"

/-! ## Backend calls -/

/-- The `vectors` parameter of a backend `createCollection` call. -/
inductive VectorsConfig where
  | bare (size : Int) (distance : String)
  | named (field : String) (size : Int) (distance : String)
deriving DecidableEq

/-- The vector argument of a backend `search` call: a bare vector or a
named-vector selector. -/
inductive SearchVector where
  | plain (v : List Rat)
  | named (name : String) (v : List Rat)
deriving DecidableEq

/-- The parameters of a backend `search` call as built by the adapter. -/
structure SearchRequestParams where
  vector : SearchVector
  limit : Int
  score_threshold : Option Rat
  with_payload : Bool
  with_vector : Bool
deriving DecidableEq

/-- A structured filter handed to the backend `scroll` call
(`must: [{key, match: {value}}]` with a single clause). -/
structure QdrantFilter where
  key : String
  value : String
deriving DecidableEq

/-- The parameters of a backend `scroll` call as built by `query`. -/
structure ScrollParams where
  filter : Option QdrantFilter
  limit : Int
  with_payload : Bool
  with_vector : Bool
deriving DecidableEq

/-- One call issued to the backend client. -/
inductive BackendCall where
  | createCollection (name : String) (vectors : VectorsConfig)
  | deleteCollection (name : String)
  | getCollection (name : String)
  | getCollections
  | upsert (name : String) (wait : Bool) (points : List Point)
  | search (name : String) (params : SearchRequestParams)
  | deletePoints (name : String) (wait : Bool) (ids : List String)
  | scroll (name : String) (params : ScrollParams)
deriving DecidableEq

/-! ## Search options and result decoding -/

/-- The `SearchOptions` fields the adapter reads (`topK`, `threshold`). -/
structure SearchOptions where
  topK : Option Int := none
  threshold : Option Rat := none
deriving DecidableEq

/-- The data slot of a hybrid search request: the adapter only checks
`Array.isArray(data)`, so model it as an array or anything else. -/
inductive ReqData where
  | arr (v : List Rat)
  | notArray
deriving DecidableEq

/-- Is the request data an array (`Array.isArray`)? -/
def ReqData.isArr : ReqData → Bool
  | .arr _ => true
  | .notArray => false

/-- The `HybridSearchRequest` fields the adapter reads
(`anns_field`, `data`, `limit`). -/
structure HybridSearchRequest where
  anns_field : String
  data : ReqData
  limit : Option Int := none
deriving DecidableEq

/-- The `HybridSearchOptions` field the adapter reads (`limit`). -/
structure HybridSearchOptions where
  limit : Option Int := none
deriving DecidableEq

/-- A reconstructed search result: document plus similarity score. -/
structure VectorSearchResult where
  document : VectorDocument
  score : Rat
deriving DecidableEq

/-- A reconstructed hybrid search result: same shape. -/
structure HybridSearchResult where
  document : VectorDocument
  score : Rat
deriving DecidableEq

/-- Decode one scored point into a `VectorDocument` exactly as the two map
blocks in `search`/`hybridSearch` do: `result.payload || {}`, then every
field read with `payload.f as T || default`; the `vector` field is
substituted by the caller (`queryVector` for `search`, `[]` for
`hybridSearch`). -/
def decodeDocument (vector : List Rat) (r : ScoredPoint) : VectorDocument :=
  let payload := r.payload.getD {}
  { id := r.id
    vector := vector
    content := jsOrStr payload.content ""
    relativePath := jsOrStr payload.relativePath ""
    startLine := jsOrInt payload.startLine 0
    endLine := jsOrInt payload.endLine 0
    fileExtension := jsOrStr payload.fileExtension ""
    metadata := payload.metadata.getD [] }

/-! ## The `query` filter translation

`query` converts its Milvus-style filter string with
`filter.match(/relativePath\s*==\s*"([^"]+)"/)` — an unanchored regular
expression; the functions below implement exactly that regex: leftmost
attempt position, literal `relativePath`, optional whitespace around `==`,
then a double-quoted, non-empty, quote-free capture. -/

/-- JS `\s` on the characters relevant here. -/
def isJsSpace (c : Char) : Bool :=
  c == ' ' || c == '\t' || c == '\n' || c == '\r' || c == '\x0b' || c == '\x0c'

/-- Strip an expected literal from the front of the input, returning the
rest on success. -/
def chopLit : List Char → List Char → Option (List Char)
  | [], s => some s
  | _ :: _, [] => none
  | p :: ps, c :: cs => if p = c then chopLit ps cs else none

/-- Attempt `relativePath\s*==\s*"([^"]+)"` at the start of `s`, returning
the capture group. -/
def matchEqAt (s : List Char) : Option (List Char) :=
  match chopLit "relativePath".data s with
  | none => none
  | some s1 =>
    match chopLit "==".data (s1.dropWhile isJsSpace) with
    | none => none
    | some s3 =>
      match s3.dropWhile isJsSpace with
      | [] => none
      | c :: s5 =>
        if c = '"' then
          match s5.takeWhile (fun d => !(d == '"')), s5.dropWhile (fun d => !(d == '"')) with
          | [], _ => none
          | cap, d :: _ => if d = '"' then some cap else none
          | _, [] => none
        else none

/-- The unanchored regex search: try the pattern at every start position,
leftmost first. -/
def findEqMatch : List Char → Option (List Char)
  | [] => none
  | c :: rest =>
    match matchEqAt (c :: rest) with
    | some cap => some cap
    | none => findEqMatch rest

/-- JS `String.prototype.trim` on character lists. -/
def jsTrim (s : List Char) : List Char :=
  ((s.dropWhile isJsSpace).reverse.dropWhile isJsSpace).reverse

/-- The filter translation performed by `query`: guarded by
`filter && filter.trim() !== ''`, then the regex; on a match the structured
predicate `{must: [{key: 'relativePath', match: {value: capture}}]}`. -/
def queryQdrantFilter (filter : String) : Option QdrantFilter :=
  if filter = "" then none
  else if jsTrim filter.data = [] then none
  else (findEqMatch filter.data).map fun cap =>
    { key := "relativePath", value := String.mk cap }

/-- Modelled from the spec: the spec's filter grammar is "a single equality
clause of the form `field == "literal"`"; this builds that exact shape, for
comparison with what the source's regex accepts. -/
def specEqualityFilter (field lit : String) : String :=
  field ++ " == \"" ++ lit ++ "\""

/-- One row of a `query` result: `{id: point.id}` plus each requested output
field present in the payload. -/
def queryRow (outputFields : List String) (point : ScrollPoint) : List (String × String) :=
  ("id", point.id) ::
    (match point.payload with
     | none => []
     | some pl => outputFields.filterMap fun f =>
         match List.lookup f pl with
         | some v => some (f, v)
         | none => none)

/-! ## The public operations

Each operation takes the stored client handle (`Option Client`, `none` when
setup produced no usable handle), the backend's response to the single
backend call the operation can issue, and its own arguments.  It returns the
operation's outcome and the list of backend calls issued. -/

/-- `createCollection(name, dimension)`: cosine metric, bare vector slot. -/
def createCollection (client : Option Client) (resp : Except BackendError Unit)
    (collectionName : String) (dimension : Int) :
    Except QdrantError Unit × List BackendCall :=
  match client with
  | none => (.error .notInitialized, [])
  | some _ =>
    (match resp with
     | .ok _ => .ok ()
     | .error e => .error (.backend e),
     [.createCollection collectionName (.bare dimension "Cosine")])

/-- `createHybridCollection(name, dimension)`: named `dense` vector slot. -/
def createHybridCollection (client : Option Client) (resp : Except BackendError Unit)
    (collectionName : String) (dimension : Int) :
    Except QdrantError Unit × List BackendCall :=
  match client with
  | none => (.error .notInitialized, [])
  | some _ =>
    (match resp with
     | .ok _ => .ok ()
     | .error e => .error (.backend e),
     [.createCollection collectionName (.named "dense" dimension "Cosine")])

/-- `dropCollection(name)`. -/
def dropCollection (client : Option Client) (resp : Except BackendError Unit)
    (collectionName : String) :
    Except QdrantError Unit × List BackendCall :=
  match client with
  | none => (.error .notInitialized, [])
  | some _ =>
    (match resp with
     | .ok _ => .ok ()
     | .error e => .error (.backend e),
     [.deleteCollection collectionName])

/-- `hasCollection(name)`: a successful lookup is `true`; a failure with
status 404 or a message containing `not found` is `false`; any other
failure propagates. -/
def hasCollection (client : Option Client) (resp : Except BackendError Unit)
    (collectionName : String) :
    Except QdrantError Bool × List BackendCall :=
  match client with
  | none => (.error .notInitialized, [])
  | some _ =>
    (match resp with
     | .ok _ => .ok true
     | .error e =>
       if e.status == some 404 || strInclOpt e.message "not found" then .ok false
       else .error (.backend e),
     [.getCollection collectionName])

/-- `listCollections()`: maps each descriptor to its name. -/
def listCollections (client : Option Client)
    (resp : Except BackendError (List CollectionDescription)) :
    Except QdrantError (List String) × List BackendCall :=
  match client with
  | none => (.error .notInitialized, [])
  | some _ =>
    (match resp with
     | .ok cols => .ok (cols.map CollectionDescription.name)
     | .error e => .error (.backend e),
     [.getCollections])

/-- `insert(name, documents)`: one `upsert` with `wait: true` and one point
per document, bare vector, encoded payload.  No precondition is checked. -/
def insert (client : Option Client) (resp : Except BackendError Unit)
    (collectionName : String) (documents : List VectorDocument) :
    Except QdrantError Unit × List BackendCall :=
  match client with
  | none => (.error .notInitialized, [])
  | some _ =>
    let points := documents.map fun doc =>
      { id := doc.id, vector := PointVector.bare doc.vector,
        payload := encodePayload doc : Point }
    (match resp with
     | .ok _ => .ok ()
     | .error e => .error (.backend e),
     [.upsert collectionName true points])

/-- `insertHybrid(name, documents)`: same, vector stored under the reserved
name `dense`. -/
def insertHybrid (client : Option Client) (resp : Except BackendError Unit)
    (collectionName : String) (documents : List VectorDocument) :
    Except QdrantError Unit × List BackendCall :=
  match client with
  | none => (.error .notInitialized, [])
  | some _ =>
    let points := documents.map fun doc =>
      { id := doc.id, vector := PointVector.namedDense doc.vector,
        payload := encodePayload doc : Point }
    (match resp with
     | .ok _ => .ok ()
     | .error e => .error (.backend e),
     [.upsert collectionName true points])

/-- `search(name, queryVector, options?)`: `topK || 10`, `threshold || 0`,
one backend search with payload and without vectors, results decoded with
the query vector substituted for the missing stored vector. -/
def search (client : Option Client) (resp : Except BackendError (List ScoredPoint))
    (collectionName : String) (queryVector : List Rat)
    (options : Option SearchOptions) :
    Except QdrantError (List VectorSearchResult) × List BackendCall :=
  match client with
  | none => (.error .notInitialized, [])
  | some _ =>
    let limit : Int := jsOrInt (options.bind SearchOptions.topK) 10
    let scoreThreshold : Rat := jsOrRat (options.bind SearchOptions.threshold) 0
    (match resp with
     | .ok points =>
       .ok (points.map fun r => { document := decodeDocument queryVector r, score := r.score })
     | .error e => .error (.backend e),
     [.search collectionName
       { vector := .plain queryVector, limit := limit,
         score_threshold := some scoreThreshold,
         with_payload := true, with_vector := false }])

/-- `hybridSearch(name, searchRequests, options?)`: limit is
`options?.limit || searchRequests[0]?.limit || 10`; the dense request is
`searchRequests.find(req => req.anns_field === 'vector')`; missing request
or non-array data throws before any backend call; otherwise one backend
search against the named vector `dense`, results decoded with an empty
vector. -/
def hybridSearch (client : Option Client) (resp : Except BackendError (List ScoredPoint))
    (collectionName : String) (searchRequests : List HybridSearchRequest)
    (options : Option HybridSearchOptions) :
    Except QdrantError (List HybridSearchResult) × List BackendCall :=
  match client with
  | none => (.error .notInitialized, [])
  | some _ =>
    let limit : Int :=
      jsOrInt (options.bind HybridSearchOptions.limit)
        (jsOrInt (searchRequests.head?.bind HybridSearchRequest.limit) 10)
    match searchRequests.find? (fun r => r.anns_field == "vector") with
    | none => (.error (.invalidRequest denseRequiredMsg), [])
    | some req =>
      match req.data with
      | .notArray => (.error (.invalidRequest denseRequiredMsg), [])
      | .arr v =>
        (match resp with
         | .ok points =>
           .ok (points.map fun r => { document := decodeDocument [] r, score := r.score })
         | .error e => .error (.backend e),
         [.search collectionName
           { vector := .named "dense" v, limit := limit,
             score_threshold := none,
             with_payload := true, with_vector := false }])

/-- `delete(name, ids)`: one backend delete with `wait: true`.  No
precondition is checked. -/
def delete (client : Option Client) (resp : Except BackendError Unit)
    (collectionName : String) (ids : List String) :
    Except QdrantError Unit × List BackendCall :=
  match client with
  | none => (.error .notInitialized, [])
  | some _ =>
    (match resp with
     | .ok _ => .ok ()
     | .error e => .error (.backend e),
     [.deletePoints collectionName true ids])

/-- `query(name, filter, outputFields, limit?)`: filter translated as
above, one `scroll` with `limit || 100`, rows restricted to `id` plus the
requested output fields present in the payload. -/
def query (client : Option Client) (resp : Except BackendError (List ScrollPoint))
    (collectionName : String) (filter : String) (outputFields : List String)
    (limit : Option Int) :
    Except QdrantError (List (List (String × String))) × List BackendCall :=
  match client with
  | none => (.error .notInitialized, [])
  | some _ =>
    let qdrantFilter := queryQdrantFilter filter
    (match resp with
     | .ok points => .ok (points.map (queryRow outputFields))
     | .error e => .error (.backend e),
     [.scroll collectionName
       { filter := qdrantFilter, limit := jsOrInt limit 100,
         with_payload := true, with_vector := false }])

/-! ## A uniform view of every public operation (for the gate claim) -/

/-- One invocation of a public operation together with the backend's
response to the call it would issue. -/
inductive Op where
  | createCollection (name : String) (dim : Int) (resp : Except BackendError Unit)
  | createHybridCollection (name : String) (dim : Int) (resp : Except BackendError Unit)
  | dropCollection (name : String) (resp : Except BackendError Unit)
  | hasCollection (name : String) (resp : Except BackendError Unit)
  | listCollections (resp : Except BackendError (List CollectionDescription))
  | insert (name : String) (docs : List VectorDocument) (resp : Except BackendError Unit)
  | insertHybrid (name : String) (docs : List VectorDocument) (resp : Except BackendError Unit)
  | search (name : String) (qv : List Rat) (opts : Option SearchOptions)
      (resp : Except BackendError (List ScoredPoint))
  | hybridSearch (name : String) (reqs : List HybridSearchRequest)
      (opts : Option HybridSearchOptions) (resp : Except BackendError (List ScoredPoint))
  | delete (name : String) (ids : List String) (resp : Except BackendError Unit)
  | query (name : String) (filter : String) (outputFields : List String)
      (limit : Option Int) (resp : Except BackendError (List ScrollPoint))

/-- Whether the invocation is a `hybridSearch`. -/
def Op.isHybridSearch : Op → Bool
  | .hybridSearch _ _ _ _ => true
  | _ => false

/-- The outcome of a public operation, erased to one type. -/
inductive OpResult where
  | unitR
  | boolR (b : Bool)
  | namesR (l : List String)
  | searchR (l : List VectorSearchResult)
  | hybridR (l : List HybridSearchResult)
  | queryR (l : List (List (String × String)))
deriving DecidableEq

/-- Run a public operation against the stored client handle. -/
def runOp (client : Option Client) : Op → Except QdrantError OpResult × List BackendCall
  | .createCollection n d resp =>
    let r := createCollection client resp n d
    (r.1.map fun _ => OpResult.unitR, r.2)
  | .createHybridCollection n d resp =>
    let r := createHybridCollection client resp n d
    (r.1.map fun _ => OpResult.unitR, r.2)
  | .dropCollection n resp =>
    let r := dropCollection client resp n
    (r.1.map fun _ => OpResult.unitR, r.2)
  | .hasCollection n resp =>
    let r := hasCollection client resp n
    (r.1.map OpResult.boolR, r.2)
  | .listCollections resp =>
    let r := listCollections client resp
    (r.1.map OpResult.namesR, r.2)
  | .insert n docs resp =>
    let r := insert client resp n docs
    (r.1.map fun _ => OpResult.unitR, r.2)
  | .insertHybrid n docs resp =>
    let r := insertHybrid client resp n docs
    (r.1.map fun _ => OpResult.unitR, r.2)
  | .search n qv opts resp =>
    let r := search client resp n qv opts
    (r.1.map OpResult.searchR, r.2)
  | .hybridSearch n reqs opts resp =>
    let r := hybridSearch client resp n reqs opts
    (r.1.map OpResult.hybridR, r.2)
  | .delete n ids resp =>
    let r := delete client resp n ids
    (r.1.map fun _ => OpResult.unitR, r.2)
  | .query n f fields lim resp =>
    let r := query client resp n f fields lim
    (r.1.map OpResult.queryR, r.2)

/-! ## Concrete values used by witnesses -/

/-- A concrete client handle. -/
def client0 : Client := {}

/-- A concrete scored point with an absent payload. -/
def p0 : ScoredPoint := { id := "a", payload := none, score := 1 }

/-- A concrete well-formed dense search request. -/
def req0 : HybridSearchRequest := { anns_field := "vector", data := .arr [], limit := none }

/-- A concrete sparse-field request (no dense field). -/
def reqSparse : HybridSearchRequest := { anns_field := "sparse", data := .notArray }

/-- A concrete dense-field request whose data is not an array. -/
def reqNA : HybridSearchRequest := { anns_field := "vector", data := .notArray }

/-- Request list whose first dense-field request has non-array data while a
later dense-field request carries an array. -/
def reqsC2 : List HybridSearchRequest :=
  [{ anns_field := "vector", data := ReqData.notArray },
   { anns_field := "vector", data := ReqData.arr [], limit := some 7 }]

/-- Same shape with different concrete attributes. -/
def reqsC9 : List HybridSearchRequest :=
  [{ anns_field := "vector", data := ReqData.notArray },
   { anns_field := "vector", data := ReqData.arr [], limit := some 5 }]

/-! ## Claim theorems -/

/-- Claim C4 (counterexample): a supplied `timeout` of `0` is NOT passed
through to the backend client, contradicting "passed through
unconditionally" — `if (this.config.timeout)` is a JS truthiness test. -/
theorem C4_counterexample :
    ({ timeout := some 0 : QdrantConfig }).timeout = some 0 ∧
    (initializeClient { timeout := some 0 }).timeout = none :=
  ⟨rfl, rfl⟩

/-- Claim C4 (amended): the connection target follows the url / host+port /
localhost precedence with JS truthiness (empty url or host counts as
absent, a zero or omitted port becomes 6333), and `apiKey` / `timeout` are
copied to the backend client exactly when truthy (non-empty, non-zero). -/
theorem C4_amended (config : QdrantConfig) :
    initializeClient config =
      { url := if truthyStr config.url then config.url else none
        host :=
          if truthyStr config.url then none
          else if truthyStr config.host then config.host
          else some "localhost"
        port :=
          if truthyStr config.url then none
          else if truthyStr config.host then some (jsOrInt config.port 6333)
          else some 6333
        apiKey := if truthyStr config.apiKey then config.apiKey else none
        timeout := if truthyInt config.timeout then config.timeout else none } := by
  unfold initializeClient
  cases hu : truthyStr config.url <;> cases hh : truthyStr config.host <;>
    cases ha : truthyStr config.apiKey <;> cases ht : truthyInt config.timeout <;>
      simp [hu, hh, ha, ht]

/-- Claim C10 (confirmed): `insert`, `insertHybrid` and `delete` perform no
non-empty check on their documents/ids argument: on the empty list each
still issues its backend upsert/delete call with zero points and succeeds,
rather than failing with `InvalidRequest` before the call. -/
theorem C10 (client : Client) (collectionName : String) :
    insert (some client) (.ok ()) collectionName [] =
      (.ok (), [.upsert collectionName true []]) ∧
    insertHybrid (some client) (.ok ()) collectionName [] =
      (.ok (), [.upsert collectionName true []]) ∧
    delete (some client) (.ok ()) collectionName [] =
      (.ok (), [.deletePoints collectionName true []]) :=
  ⟨rfl, rfl, rfl⟩

/-- Claim C6 (confirmed): `hasCollection` issues exactly one backend lookup;
a successful lookup yields `true`; a failure with status 404 or a message
containing "not found" yields `false`; every other failure propagates with
the backend error unchanged. -/
theorem C6 (client : Client) (collectionName : String)
    (resp : Except BackendError Unit) (e : BackendError) :
    (hasCollection (some client) resp collectionName).2 =
      [BackendCall.getCollection collectionName] ∧
    (resp = .ok () →
      (hasCollection (some client) resp collectionName).1 = .ok true) ∧
    (resp = .error e →
      (e.status = some 404 ∨ strInclOpt e.message "not found" = true) →
      (hasCollection (some client) resp collectionName).1 = .ok false) ∧
    (resp = .error e → e.status ≠ some 404 →
      strInclOpt e.message "not found" = false →
      (hasCollection (some client) resp collectionName).1 = .error (.backend e)) := by
  refine ⟨rfl, ?_, ?_, ?_⟩
  · rintro rfl; rfl
  · rintro rfl h
    rcases h with h | h <;> simp [hasCollection, h]
  · rintro rfl h1 h2
    simp [hasCollection, h1, h2]

/-- Claim C6 witness at a backend error with status 500. -/
theorem C6_witness :
    (hasCollection (some client0) (.error { status := some 500, message := some "boom" }) "c").1 =
      .error (.backend { status := some 500, message := some "boom" }) ∧
    (hasCollection (some client0) (.error { status := some 500, message := some "boom" }) "c").2 =
      [BackendCall.getCollection "c"] := by
  have h := C6 client0 "c" (.error { status := some 500, message := some "boom" })
    { status := some 500, message := some "boom" }
  exact ⟨h.2.2.2 rfl (by decide) (by decide), h.1⟩

/-- Claim C7 (confirmed): decoding a search or hybrid-search point whose
payload misses a provenance field substitutes the typed default (empty
string, 0, 0, empty string, empty mapping), and a missing field never makes
the operation fail: with a successful backend response `search` (and
`hybridSearch`, given a usable dense request) returns `ok`. -/
theorem C7 (queryVector : List Rat) (r : ScoredPoint) (client : Client)
    (collectionName : String) (opts : Option SearchOptions)
    (points : List ScoredPoint) (reqs : List HybridSearchRequest)
    (hopts : Option HybridSearchOptions) (req : HybridSearchRequest) (v : List Rat)
    (hfind : reqs.find? (fun q => q.anns_field == "vector") = some req)
    (hdata : req.data = ReqData.arr v) :
    ((r.payload.getD {}).content = none → (decodeDocument queryVector r).content = "") ∧
    ((r.payload.getD {}).relativePath = none →
      (decodeDocument queryVector r).relativePath = "") ∧
    ((r.payload.getD {}).startLine = none → (decodeDocument queryVector r).startLine = 0) ∧
    ((r.payload.getD {}).endLine = none → (decodeDocument queryVector r).endLine = 0) ∧
    ((r.payload.getD {}).fileExtension = none →
      (decodeDocument queryVector r).fileExtension = "") ∧
    ((r.payload.getD {}).metadata = none → (decodeDocument queryVector r).metadata = []) ∧
    (∃ rs, (search (some client) (.ok points) collectionName queryVector opts).1 = .ok rs) ∧
    (∃ rs, (hybridSearch (some client) (.ok points) collectionName reqs hopts).1 = .ok rs) := by
  refine ⟨?_, ?_, ?_, ?_, ?_, ?_, ⟨_, rfl⟩, ?_⟩
  · intro h; simp [decodeDocument, h, jsOrStr]
  · intro h; simp [decodeDocument, h, jsOrStr]
  · intro h; simp [decodeDocument, h, jsOrInt]
  · intro h; simp [decodeDocument, h, jsOrInt]
  · intro h; simp [decodeDocument, h, jsOrStr]
  · intro h; simp [decodeDocument, h]
  · simp only [hybridSearch, hfind, hdata]
    exact ⟨_, rfl⟩

/-- Claim C7 witness: a point with no payload decodes to all defaults and
both operations succeed on it. -/
theorem C7_witness :
    (decodeDocument [] p0).content = "" ∧
    (decodeDocument [] p0).relativePath = "" ∧
    (decodeDocument [] p0).startLine = 0 ∧
    (decodeDocument [] p0).endLine = 0 ∧
    (decodeDocument [] p0).fileExtension = "" ∧
    (decodeDocument [] p0).metadata = [] ∧
    (∃ rs, (search (some client0) (.ok [p0]) "c" [] none).1 = .ok rs) ∧
    (∃ rs, (hybridSearch (some client0) (.ok [p0]) "c" [req0] none).1 = .ok rs) := by
  have h := C7 [] p0 client0 "c" none [p0] [req0] none req0 [] rfl rfl
  exact ⟨h.1 rfl, h.2.1 rfl, h.2.2.1 rfl, h.2.2.2.1 rfl, h.2.2.2.2.1 rfl,
    h.2.2.2.2.2.1 rfl, h.2.2.2.2.2.2.1, h.2.2.2.2.2.2.2⟩

/-- Claim C8 (confirmed): every document returned by `search` carries the
caller's query vector in its `vector` field (the stored vector is not
requested), and every document returned by `hybridSearch` carries the empty
sequence. -/
theorem C8 (client : Client) (collectionName : String) (queryVector : List Rat)
    (opts : Option SearchOptions) (points : List ScoredPoint)
    (reqs : List HybridSearchRequest) (hopts : Option HybridSearchOptions)
    (rs : List VectorSearchResult) (hs : List HybridSearchResult)
    (h1 : (search (some client) (.ok points) collectionName queryVector opts).1 = .ok rs)
    (h2 : (hybridSearch (some client) (.ok points) collectionName reqs hopts).1 = .ok hs) :
    (∀ x ∈ rs, x.document.vector = queryVector) ∧ (∀ x ∈ hs, x.document.vector = []) := by
  constructor
  · have hr : rs =
        points.map fun r => { document := decodeDocument queryVector r, score := r.score } := by
      have := h1
      simp only [search] at this
      exact (Except.ok.inj this).symm
    subst hr
    intro x hx
    rw [List.mem_map] at hx
    obtain ⟨p, _, rfl⟩ := hx
    rfl
  · rcases hf : reqs.find? (fun r => r.anns_field == "vector") with _ | req
    · simp only [hybridSearch, hf] at h2
      cases h2
    · rcases hd : req.data with v | _
      · simp only [hybridSearch, hf, hd] at h2
        have hh : hs =
            points.map fun r => { document := decodeDocument [] r, score := r.score } :=
          (Except.ok.inj h2).symm
        subst hh
        intro x hx
        rw [List.mem_map] at hx
        obtain ⟨p, _, rfl⟩ := hx
        rfl
      · simp only [hybridSearch, hf, hd] at h2
        cases h2

/-- Claim C8 witness at a concrete successful search and hybrid search. -/
theorem C8_witness :
    (∀ x ∈ ([{ document := decodeDocument [] p0, score := p0.score }] :
        List VectorSearchResult), x.document.vector = []) ∧
    (∀ x ∈ ([{ document := decodeDocument [] p0, score := p0.score }] :
        List HybridSearchResult), x.document.vector = []) := by
  have h := C8 client0 "c" [] none [p0] [req0] none
    [{ document := decodeDocument [] p0, score := p0.score }]
    [{ document := decodeDocument [] p0, score := p0.score }] rfl rfl
  exact h

/-- Claim C2 (counterexample): a request list that does contain a request
targeting the dense field — indeed one whose data is an array — still fails
with `InvalidRequest` and issues no backend call, because `find` selects the
first `anns_field === 'vector'` request and that one's data is not an
array. -/
theorem C2_counterexample :
    reqsC2.any (fun r => r.anns_field == "vector" && r.data.isArr) = true ∧
    hybridSearch (some client0) (.ok []) "c" reqsC2 none =
      (.error (.invalidRequest denseRequiredMsg), []) := by
  exact ⟨by decide, by rfl⟩

/-- Claim C2 (amended): with no request whose `anns_field` is `'vector'`,
`hybridSearch` fails with `InvalidRequest` and issues no backend call; when
the first such request carries array data, one backend search is issued
(against the named `dense` vector) and the ranked results come from that
dense response alone. -/
theorem C2_amended (client : Client) (collectionName : String)
    (reqs : List HybridSearchRequest) (hopts : Option HybridSearchOptions)
    (resp : Except BackendError (List ScoredPoint)) (points : List ScoredPoint)
    (req : HybridSearchRequest) (v : List Rat) :
    ((∀ r ∈ reqs, r.anns_field ≠ "vector") →
      hybridSearch (some client) resp collectionName reqs hopts =
        (.error (.invalidRequest denseRequiredMsg), [])) ∧
    (reqs.find? (fun r => r.anns_field == "vector") = some req →
      req.data = ReqData.arr v → resp = .ok points →
      (hybridSearch (some client) resp collectionName reqs hopts).1 =
        .ok (points.map fun p => { document := decodeDocument [] p, score := p.score }) ∧
      (hybridSearch (some client) resp collectionName reqs hopts).2 =
        [BackendCall.search collectionName
          { vector := .named "dense" v,
            limit := jsOrInt (hopts.bind HybridSearchOptions.limit)
              (jsOrInt (reqs.head?.bind HybridSearchRequest.limit) 10),
            score_threshold := none, with_payload := true, with_vector := false }]) := by
  constructor
  · intro h
    have hnone : reqs.find? (fun r => r.anns_field == "vector") = none := by
      rw [List.find?_eq_none]
      intro x hx
      simpa using h x hx
    simp [hybridSearch, hnone]
  · intro hf hd hresp
    subst hresp
    constructor
    · simp [hybridSearch, hf, hd]
    · simp [hybridSearch, hf, hd]

/-- Claim C2 witness: a sparse-only list fails with no backend call; a
well-formed dense request issues the dense search. -/
theorem C2_witness :
    hybridSearch (some client0) (.ok []) "c" [reqSparse] none =
      (.error (.invalidRequest denseRequiredMsg), []) ∧
    (hybridSearch (some client0) (.ok []) "c" [req0] none).1 = .ok [] ∧
    (hybridSearch (some client0) (.ok []) "c" [req0] none).2 =
      [BackendCall.search "c"
        { vector := .named "dense" [], limit := 10,
          score_threshold := none, with_payload := true, with_vector := false }] := by
  have ha := (C2_amended client0 "c" [reqSparse] none (.ok []) [] req0 []).1 (by decide)
  have hb := (C2_amended client0 "c" [req0] none (.ok []) [] req0 []).2 (by decide) rfl rfl
  exact ⟨ha, hb.1, hb.2⟩

/-- Claim C9 (counterexample): the claim's selection rule — first request
with `anns_field = 'vector'` AND array data — finds a usable dense request
in `reqsC9`, yet `hybridSearch` throws and issues no backend call, because
the code finds the first `'vector'` request regardless of its data and only
then checks `Array.isArray`. -/
theorem C9_counterexample :
    List.find? (fun r => r.anns_field == "vector" && r.data.isArr) reqsC9 =
      some { anns_field := "vector", data := ReqData.arr [], limit := some 5 } ∧
    hybridSearch (some client0) (.ok []) "c" reqsC9 none =
      (.error (.invalidRequest denseRequiredMsg), []) := by
  exact ⟨by decide, by rfl⟩

/-- Claim C9 (amended): the dense request is the FIRST request whose
`anns_field` equals `'vector'`, irrespective of its data; if there is none,
or that first one's data is not an array, `hybridSearch` fails with
`InvalidRequest` and no backend call; otherwise the backend search is
issued against the named vector `'dense'` with that request's data. -/
theorem C9_amended (client : Client) (collectionName : String)
    (reqs : List HybridSearchRequest) (hopts : Option HybridSearchOptions)
    (resp : Except BackendError (List ScoredPoint)) (req : HybridSearchRequest)
    (v : List Rat) :
    (reqs.find? (fun r => r.anns_field == "vector") = none →
      hybridSearch (some client) resp collectionName reqs hopts =
        (.error (.invalidRequest denseRequiredMsg), [])) ∧
    (reqs.find? (fun r => r.anns_field == "vector") = some req →
      req.data = ReqData.notArray →
      hybridSearch (some client) resp collectionName reqs hopts =
        (.error (.invalidRequest denseRequiredMsg), [])) ∧
    (reqs.find? (fun r => r.anns_field == "vector") = some req →
      req.data = ReqData.arr v →
      (hybridSearch (some client) resp collectionName reqs hopts).2 =
        [BackendCall.search collectionName
          { vector := .named "dense" v,
            limit := jsOrInt (hopts.bind HybridSearchOptions.limit)
              (jsOrInt (reqs.head?.bind HybridSearchRequest.limit) 10),
            score_threshold := none, with_payload := true, with_vector := false }]) := by
  refine ⟨?_, ?_, ?_⟩
  · intro hf; simp [hybridSearch, hf]
  · intro hf hd; simp [hybridSearch, hf, hd]
  · intro hf hd
    simp [hybridSearch, hf, hd]

/-- Claim C9 witness covering all three branches of the amended claim. -/
theorem C9_witness :
    hybridSearch (some client0) (.ok []) "c" [reqSparse] none =
      (.error (.invalidRequest denseRequiredMsg), []) ∧
    hybridSearch (some client0) (.ok []) "c" [reqNA] none =
      (.error (.invalidRequest denseRequiredMsg), []) ∧
    (hybridSearch (some client0) (.ok []) "c" [req0] none).2 =
      [BackendCall.search "c"
        { vector := .named "dense" [], limit := 10,
          score_threshold := none, with_payload := true, with_vector := false }] := by
  have h1 := (C9_amended client0 "c" [reqSparse] none (.ok []) req0 []).1 (by decide)
  have h2 := (C9_amended client0 "c" [reqNA] none (.ok []) reqNA []).2.1 (by decide) rfl
  have h3 := (C9_amended client0 "c" [req0] none (.ok []) req0 []).2.2 (by decide) rfl
  exact ⟨h1, h2, h3⟩

/-- Claim C3 (counterexample): with a usable client handle, `hybridSearch`
on an empty request list does NOT proceed to its backend call — it fails
with `InvalidRequest` and issues nothing — so "if setup succeeded, the
operation proceeds to its backend call" is false as stated. -/
theorem C3_counterexample :
    (runOp (some client0) (Op.hybridSearch "c" [] none (.ok []))).1 =
      .error (.invalidRequest denseRequiredMsg) ∧
    (runOp (some client0) (Op.hybridSearch "c" [] none (.ok []))).2 = [] :=
  ⟨rfl, rfl⟩

/-- Claim C3 (amended): every public operation run without a usable client
handle fails with `NotInitialized` and issues no backend call; with a
usable handle no operation ever fails with `NotInitialized`, and every
operation except `hybridSearch` (which also validates its requests first)
issues exactly one backend call. -/
theorem C3_amended (op : Op) (client : Client) :
    runOp none op = (.error .notInitialized, []) ∧
    (runOp (some client) op).1 ≠ .error .notInitialized ∧
    (op.isHybridSearch = false → (runOp (some client) op).2.length = 1) := by
  refine ⟨?_, ?_, ?_⟩
  · cases op <;> rfl
  · cases op with
    | createCollection n d resp =>
      cases resp <;> simp [runOp, createCollection, Except.map]
    | createHybridCollection n d resp =>
      cases resp <;> simp [runOp, createHybridCollection, Except.map]
    | dropCollection n resp => cases resp <;> simp [runOp, dropCollection, Except.map]
    | hasCollection n resp =>
      cases resp with
      | ok u => simp [runOp, hasCollection, Except.map]
      | error e =>
        simp only [runOp, hasCollection]
        split <;> simp [Except.map]
    | listCollections resp => cases resp <;> simp [runOp, listCollections, Except.map]
    | insert n docs resp => cases resp <;> simp [runOp, insert, Except.map]
    | insertHybrid n docs resp => cases resp <;> simp [runOp, insertHybrid, Except.map]
    | search n qv opts resp => cases resp <;> simp [runOp, search, Except.map]
    | hybridSearch n reqs opts resp =>
      simp only [runOp]
      rcases hf : reqs.find? (fun r => r.anns_field == "vector") with _ | req
      · simp [hybridSearch, hf, Except.map]
      · rcases hd : req.data with v | _
        · cases resp <;> simp [hybridSearch, hf, hd, Except.map]
        · simp [hybridSearch, hf, hd, Except.map]
    | delete n ids resp => cases resp <;> simp [runOp, delete, Except.map]
    | query n f fields lim resp => cases resp <;> simp [runOp, query, Except.map]
  · intro h
    cases op <;> first | rfl | exact Bool.noConfusion h

/-- Claim C3 witness at a concrete non-hybrid operation. -/
theorem C3_witness :
    runOp none (Op.dropCollection "c" (.ok ())) = (.error .notInitialized, []) ∧
    (runOp (some client0) (Op.dropCollection "c" (.ok ()))).1 ≠ .error .notInitialized ∧
    (runOp (some client0) (Op.dropCollection "c" (.ok ()))).2.length = 1 := by
  have h := C3_amended (Op.dropCollection "c" (.ok ())) client0
  exact ⟨h.1, h.2.1, h.2.2 rfl⟩

/-- Claim C5 (counterexample): a caller-supplied `topK` of `0` is replaced
by the default 10 (`options?.topK || 10`), so the defaults do NOT apply
"exactly when the caller omits them": the backend request carries limit 10,
not the supplied 0. -/
theorem C5_counterexample :
    (search (some client0) (.ok []) "c" [] (some { topK := some 0 })).2 =
      [BackendCall.search "c"
        { vector := .plain [], limit := 10, score_threshold := some 0,
          with_payload := true, with_vector := false }] ∧
    (search (some client0) (.ok []) "c" [] (some { topK := some 0 })).2 ≠
      [BackendCall.search "c"
        { vector := .plain [], limit := 0, score_threshold := some 0,
          with_payload := true, with_vector := false }] := by
  exact ⟨by decide, by decide⟩

/-- Claim C5 (amended): the effective limit is `topK` when supplied and
non-zero, else 10; the effective threshold is `threshold` when supplied and
non-zero, else 0; the backend request carries exactly these, so given a
backend response honouring them, `search` returns at most that many
results, each with score at or above the threshold, and an empty response
yields the empty sequence with no error. -/
theorem C5_amended (client : Client) (collectionName : String) (queryVector : List Rat)
    (opts : Option SearchOptions) (points : List ScoredPoint)
    (hlen : (points.length : Int) ≤ jsOrInt (opts.bind SearchOptions.topK) 10)
    (hsc : ∀ p ∈ points, jsOrRat (opts.bind SearchOptions.threshold) 0 ≤ p.score) :
    (search (some client) (.ok points) collectionName queryVector opts).2 =
      [BackendCall.search collectionName
        { vector := .plain queryVector,
          limit := jsOrInt (opts.bind SearchOptions.topK) 10,
          score_threshold := some (jsOrRat (opts.bind SearchOptions.threshold) 0),
          with_payload := true, with_vector := false }] ∧
    ∃ rs, (search (some client) (.ok points) collectionName queryVector opts).1 = .ok rs ∧
      (rs.length : Int) ≤ jsOrInt (opts.bind SearchOptions.topK) 10 ∧
      (∀ r ∈ rs, jsOrRat (opts.bind SearchOptions.threshold) 0 ≤ r.score) ∧
      (points = [] → rs = []) := by
  refine ⟨rfl,
    points.map fun r => { document := decodeDocument queryVector r, score := r.score },
    rfl, ?_, ?_, ?_⟩
  · simpa using hlen
  · intro r hr
    rw [List.mem_map] at hr
    obtain ⟨p, hp, rfl⟩ := hr
    exact hsc p hp
  · rintro rfl; rfl

/-- Claim C5 witness at a one-point response with defaulted options. -/
theorem C5_witness :
    (search (some client0) (.ok [p0]) "c" [] none).2 =
      [BackendCall.search "c"
        { vector := .plain [], limit := 10, score_threshold := some 0,
          with_payload := true, with_vector := false }] ∧
    ∃ rs, (search (some client0) (.ok [p0]) "c" [] none).1 = .ok rs ∧
      (rs.length : Int) ≤ 10 ∧
      (∀ r ∈ rs, (0 : Rat) ≤ r.score) ∧
      ([p0] = ([] : List ScoredPoint) → rs = []) := by
  have h := C5_amended client0 "c" [] none [p0] (by decide) (by decide)
  exact h


theorem chopLit_append (p t : List Char) : chopLit p (p ++ t) = some t := by
  induction p with
  | nil => rfl
  | cons c cs ih => simp [chopLit, ih]

theorem takeWhile_noQuote (cs rest : List Char) (h : ∀ c ∈ cs, c ≠ '"') :
    (cs ++ '"' :: rest).takeWhile (fun d => !(d == '"')) = cs := by
  induction cs with
  | nil => simp [List.takeWhile_cons]
  | cons a as ih =>
    have ha : (a == '"') = false :=
      beq_eq_false_iff_ne.mpr (h a (List.mem_cons_self a as))
    have ih' := ih fun c hc => h c (List.mem_cons_of_mem _ hc)
    simp [List.takeWhile_cons, ha, ih']

theorem dropWhile_noQuote (cs rest : List Char) (h : ∀ c ∈ cs, c ≠ '"') :
    (cs ++ '"' :: rest).dropWhile (fun d => !(d == '"')) = '"' :: rest := by
  induction cs with
  | nil => simp [List.dropWhile_cons]
  | cons a as ih =>
    have ha : (a == '"') = false :=
      beq_eq_false_iff_ne.mpr (h a (List.mem_cons_self a as))
    have ih' := ih fun c hc => h c (List.mem_cons_of_mem _ hc)
    simp [List.dropWhile_cons, ha, ih']

theorem matchEqAt_canonical (cs : List Char) (hne : cs ≠ [])
    (hq : ∀ c ∈ cs, c ≠ '"') :
    matchEqAt ("relativePath == \"".data ++ (cs ++ ['"'])) = some cs := by
  obtain ⟨a, as, rfl⟩ : ∃ a as, cs = a :: as := by
    cases cs with
    | nil => exact absurd rfl hne
    | cons a as => exact ⟨a, as, rfl⟩
  have hkey : "relativePath".data =
      ['r', 'e', 'l', 'a', 't', 'i', 'v', 'e', 'P', 'a', 't', 'h'] := by decide
  have heq2 : "==".data = ['=', '='] := by decide
  have hdata : ("relativePath == \"".data ++ ((a :: as) ++ ['"']))
      = ['r', 'e', 'l', 'a', 't', 'i', 'v', 'e', 'P', 'a', 't', 'h'] ++
        (' ' :: '=' :: '=' :: ' ' :: '"' :: a :: (as ++ ['"'])) := by
    have h17 : "relativePath == \"".data =
        ['r', 'e', 'l', 'a', 't', 'i', 'v', 'e', 'P', 'a', 't', 'h',
         ' ', '=', '=', ' ', '"'] := by decide
    rw [h17]
    rfl
  have hs1 : isJsSpace ' ' = true := rfl
  have hs2 : isJsSpace '=' = false := rfl
  have hs3 : isJsSpace '"' = false := rfl
  have hw1 : List.dropWhile isJsSpace
      (' ' :: '=' :: '=' :: ' ' :: '"' :: a :: (as ++ ['"'])) =
      '=' :: '=' :: ' ' :: '"' :: a :: (as ++ ['"']) := by
    simp [List.dropWhile_cons, hs1, hs2]
  have hc2 : chopLit ['=', '='] ('=' :: '=' :: ' ' :: '"' :: a :: (as ++ ['"'])) =
      some (' ' :: '"' :: a :: (as ++ ['"'])) := by
    simp [chopLit]
  have hw2 : List.dropWhile isJsSpace (' ' :: '"' :: a :: (as ++ ['"'])) =
      '"' :: a :: (as ++ ['"']) := by
    simp [List.dropWhile_cons, hs1, hs3]
  have ht : List.takeWhile (fun d => !(d == '"')) (a :: (as ++ ['"'])) = a :: as :=
    takeWhile_noQuote (a :: as) [] hq
  have hd : List.dropWhile (fun d => !(d == '"')) (a :: (as ++ ['"'])) = ['"'] :=
    dropWhile_noQuote (a :: as) [] hq
  rw [hdata]
  unfold matchEqAt
  rw [hkey, heq2, chopLit_append]
  simp only [hw1, hc2, hw2, ht, hd, eq_self_iff_true, if_true]

theorem findEqMatch_canonical (cs : List Char) (hne : cs ≠ [])
    (hq : ∀ c ∈ cs, c ≠ '"') :
    findEqMatch ("relativePath == \"".data ++ (cs ++ ['"'])) = some cs := by
  have hcons : "relativePath == \"".data ++ (cs ++ ['"'])
      = 'r' :: ("elativePath == \"".data ++ (cs ++ ['"'])) := by
    have h1 : "relativePath == \"".data = 'r' :: "elativePath == \"".data := by decide
    rw [h1]
    rfl
  rw [hcons]
  simp only [findEqMatch]
  rw [← hcons, matchEqAt_canonical cs hne hq]

theorem data_append (a b : String) : (a ++ b).data = a.data ++ b.data := rfl

theorem queryFilter_canonical (lit : String) (hne : lit ≠ "")
    (hq : ∀ c ∈ lit.data, c ≠ '"') :
    queryQdrantFilter (specEqualityFilter "relativePath" lit) =
      some { key := "relativePath", value := lit } := by
  have hne' : lit.data ≠ [] := by
    intro h
    apply hne
    apply String.ext
    rw [h]
  have hdata : (specEqualityFilter "relativePath" lit).data =
      "relativePath == \"".data ++ (lit.data ++ ['"']) := by
    have hd1 : (specEqualityFilter "relativePath" lit).data
        = (("relativePath".data ++ " == \"".data) ++ lit.data) ++ "\"".data := by
      unfold specEqualityFilter
      rw [data_append, data_append, data_append]
    have h2 : "\"".data = ['"'] := by decide
    have h3 : "relativePath".data ++ " == \"".data = "relativePath == \"".data := by decide
    rw [hd1, h2, h3, List.append_assoc]
  have hfind := findEqMatch_canonical lit.data hne' hq
  have hguard1 : specEqualityFilter "relativePath" lit ≠ "" := by
    intro h0
    have hx : (specEqualityFilter "relativePath" lit).data = [] := by rw [h0]
    rw [hdata] at hx
    rcases List.append_eq_nil.mp hx with ⟨-, h2⟩
    rcases List.append_eq_nil.mp h2 with ⟨-, h3⟩
    cases h3
  have hhead : (specEqualityFilter "relativePath" lit).data =
      'r' :: ("elativePath == \"".data ++ (lit.data ++ ['"'])) := by
    rw [hdata]
    have h1 : "relativePath == \"".data = 'r' :: "elativePath == \"".data := by decide
    rw [h1]
    rfl
  have hguard2 : jsTrim (specEqualityFilter "relativePath" lit).data ≠ [] := by
    rw [hhead]
    intro h0
    have hr : isJsSpace 'r' = false := rfl
    have hdw : ('r' :: ("elativePath == \"".data ++ (lit.data ++ ['"']))).dropWhile
        isJsSpace = 'r' :: ("elativePath == \"".data ++ (lit.data ++ ['"'])) := by
      rw [List.dropWhile_cons, hr]
      simp
    unfold jsTrim at h0
    rw [hdw] at h0
    have h1 := List.reverse_eq_nil_iff.mp h0
    have h2 := List.dropWhile_eq_nil_iff.mp h1
    have h3 : isJsSpace 'r' = true := h2 'r' (by simp)
    rw [hr] at h3
    cases h3
  unfold queryQdrantFilter
  rw [if_neg hguard1, if_neg hguard2, hdata, hfind]
  have hmk : String.mk lit.data = lit := by
    cases lit
    rfl
  simp [hmk]

/-- Claim C1 (counterexample): the equality filter `content == "x"` has the
claimed single-equality shape, yet `query` produces no predicate at all for
it (the source regex only ever matches the field `relativePath`), rather
than a predicate on the field `content`. -/
theorem C1_counterexample :
    queryQdrantFilter (specEqualityFilter "content" "x") ≠
      some { key := "content", value := "x" } ∧
    queryQdrantFilter (specEqualityFilter "content" "x") = none := by
  exact ⟨by decide, by decide⟩

/-- Claim C1 (amended): only the field `relativePath` is supported: a filter
`relativePath == "literal"` (with a non-empty, quote-free literal) produces
the predicate requiring the backend field `relativePath` to equal the
literal exactly, and the scroll call carries it; every filter the regex
does not match — including equality filters on any other field — produces
no predicate, never a parse error, and behaves exactly like no filter. -/
theorem C1_amended (lit f collectionName : String) (outputFields : List String)
    (lim : Option Int) (client : Client)
    (resp : Except BackendError (List ScrollPoint)) (pts : List ScrollPoint)
    (hne : lit ≠ "") (hq : ∀ c ∈ lit.data, c ≠ '"') :
    queryQdrantFilter (specEqualityFilter "relativePath" lit) =
      some { key := "relativePath", value := lit } ∧
    (query (some client) resp collectionName (specEqualityFilter "relativePath" lit)
        outputFields lim).2 =
      [BackendCall.scroll collectionName
        { filter := some { key := "relativePath", value := lit },
          limit := jsOrInt lim 100, with_payload := true, with_vector := false }] ∧
    (queryQdrantFilter f = none →
      query (some client) resp collectionName f outputFields lim =
        query (some client) resp collectionName "" outputFields lim) ∧
    (resp = .ok pts →
      (query (some client) resp collectionName f outputFields lim).1 =
        .ok (pts.map (queryRow outputFields))) := by
  refine ⟨queryFilter_canonical lit hne hq, ?_, ?_, ?_⟩
  · simp only [query]
    rw [queryFilter_canonical lit hne hq]
  · intro h
    have h0 : queryQdrantFilter "" = none := rfl
    simp [query, h, h0]
  · rintro rfl
    rfl

/-- Claim C1 witness: the supported filter shape on `relativePath` produces
the predicate; an unmatched filter behaves like the empty filter and still
returns `ok`. -/
theorem C1_witness :
    queryQdrantFilter (specEqualityFilter "relativePath" "src/a.ts") =
      some { key := "relativePath", value := "src/a.ts" } ∧
    (query (some client0) (.ok []) "c" (specEqualityFilter "relativePath" "src/a.ts")
        [] none).2 =
      [BackendCall.scroll "c"
        { filter := some { key := "relativePath", value := "src/a.ts" },
          limit := 100, with_payload := true, with_vector := false }] ∧
    query (some client0) (.ok []) "c" "not a filter" [] none =
      query (some client0) (.ok []) "c" "" [] none ∧
    (query (some client0) (Except.ok ([] : List ScrollPoint)) "c" "not a filter" [] none).1 =
      .ok [] := by
  have h := C1_amended "src/a.ts" "not a filter" "c" [] none client0 (.ok []) []
    (by decide) (by decide)
  exact ⟨h.1, h.2.1, h.2.2.1 (by decide), h.2.2.2 rfl⟩

end QdrantDB
